import Mathlib

/-!
Verification of the project-context and project-type resolution engine of the
ionic-cli snapshot (src/packages/ionic/src/commands/start.ts, lib/project
portion). The definitions below embed the ProjectDetails orchestrator, its
name and type resolution chains, the runner accessors of the Project base
class, and the legacy config migration of the ProjectConfig constructor.
-/

namespace IonicCli

/-- Closed enum of supported project types, in detection priority order.
Modelled from the spec: the constant PROJECT_TYPES from ../constants is not
part of this snapshot; the spec fixes the closed enum (angular, ionic-angular,
ionic1, custom) and a fixed priority list used for detection. -/
def PROJECT_TYPES : List String := ["angular", "ionic-angular", "ionic1", "custom"]

/-- Fixed project config file name. Modelled from the spec: the constant
PROJECT_FILE from ../constants is not part of this snapshot; the spec states
the path is the root directory joined with a fixed filename constant. -/
def PROJECT_FILE : String := "ionic.config.json"

/-- Diagnostic codes, from ProjectDetailsErrorCode in the source. -/
inductive ErrorCode where
  | ERR_INVALID_PROJECT_FILE
  | ERR_INVALID_PROJECT_TYPE
  | ERR_MISSING_PROJECT_TYPE
  | ERR_MULTI_MISSING_CONFIG
  | ERR_MULTI_MISSING_NAME
  deriving DecidableEq, Repr

/-- A single-app (sub-)project config: the fields of IProjectConfig that the
resolution engine reads. The field type is the optional declared project type
(a JSON string when present) and root the optional root override. -/
structure AppConfig where
  type : Option String
  root : Option String
  deriving DecidableEq, Repr

/-- A multi-app workspace config (IMultiProjectConfig): named sub-projects in
declaration order together with the optional defaultProject. -/
structure MultiAppConfig where
  projects : List (String × AppConfig)
  defaultProject : Option String
  deriving DecidableEq, Repr

/-- Shape of the projects field of a raw, freshly parsed config file: absent,
a mapping of named sub-configs, or present with a non-mapping value. -/
inductive ProjectsField where
  | absent
  | mapping (m : List (String × AppConfig))
  | nonMapping
  deriving DecidableEq, Repr

/-- A raw parsed config file: its projects field, the top-level single-app
fields, and the optional defaultProject. -/
structure RawConfig where
  projects : ProjectsField
  top : AppConfig
  defaultProject : Option String
  deriving DecidableEq, Repr

/-- Modelled from the spec: isProjectConfig from ../../guards is not part of
this snapshot; a config is single-app iff it lacks a projects mapping. -/
def isProjectConfig (raw : RawConfig) : Bool :=
  match raw.projects with
  | ProjectsField.absent => true
  | _ => false

/-- Modelled from the spec: isMultiProjectConfig from ../../guards is not part
of this snapshot; a config is multi-app iff it has a projects mapping, and the
multi-app view of the raw config is that mapping plus defaultProject. -/
def asMultiProjectConfig (raw : RawConfig) : Option MultiAppConfig :=
  match raw.projects with
  | ProjectsField.mapping m => some { projects := m, defaultProject := raw.defaultProject }
  | _ => none

/-- String prefix test, the model of the JavaScript String.startsWith used by
getNameFromPathMatch. -/
def strStartsWith (s p : String) : Bool :=
  List.isPrefixOf p.toList s.toList

/-- Model of path.resolve(base, p) for the paths this engine builds: an
absolute p wins, otherwise p is joined onto base. -/
def pathResolve (base p : String) : String :=
  if strStartsWith p "/" then p else base ++ "/" ++ p

/-- Per-invocation inputs of ProjectDetails: rootDirectory and the parsed args
from ProjectDetailsDeps, ctx.execPath (the working directory) read by
getNameFromPathMatch, and the outcome of each project variant marker probe
(the detected method), abstracting the read-only filesystem inspection done by
the variant classes, which are outside this snapshot. -/
structure DetailsEnv where
  rootDirectory : String
  execPath : String
  argsProject : Option String
  detected : String → Bool

/-- ProjectDetails.getNameFromArgs: the project arg, when present and truthy
(a JavaScript empty string is falsy and yields nothing). -/
def getNameFromArgs (env : DetailsEnv) : Option String :=
  match env.argsProject with
  | some s => if s = "" then none else some s
  | none => none

/-- One entry test of ProjectDetails.getNameFromPathMatch: an entry matches
when it has a truthy root and the working directory starts with the root
resolved against the root directory. -/
def rootMatches (env : DetailsEnv) (value : AppConfig) : Bool :=
  match value.root with
  | some r =>
    if r = "" then false
    else strStartsWith env.execPath (pathResolve env.rootDirectory r)
  | none => false

/-- ProjectDetails.getNameFromPathMatch: the first entry of the projects
mapping, in declaration order, whose resolved root contains the working
directory. -/
def getNameFromPathMatch (env : DetailsEnv) (config : MultiAppConfig) : Option String :=
  Option.map Prod.fst (config.projects.find? (fun kv => rootMatches env kv.snd))

/-- ProjectDetails.getNameFromDefaultProject: the declared defaultProject,
when truthy. -/
def getNameFromDefaultProject (config : MultiAppConfig) : Option String :=
  match config.defaultProject with
  | some s => if s = "" then none else some s
  | none => none

/-- The resolveValue chain of ProjectDetails.determineMultiApp (resolveValue
itself, from cli-framework utils/fn, is modelled from the spec: each step is
attempted only if the previous yielded nothing): args, then path match, then
defaultProject. -/
def resolveName (env : DetailsEnv) (config : MultiAppConfig) : Option String :=
  match getNameFromArgs env with
  | some n => some n
  | none =>
    match getNameFromPathMatch env config with
    | some n => some n
    | none => getNameFromDefaultProject config

/-- ProjectDetails.getTypeFromConfig: the declared type field, when truthy. -/
def getTypeFromConfig (config : AppConfig) : Option String :=
  match config.type with
  | some t => if t = "" then none else some t
  | none => none

/-- ProjectDetails.getTypeFromDetection: probe each supported type in the
fixed priority order of PROJECT_TYPES; the first type whose marker probe
succeeds wins, and probing stops there. -/
def getTypeFromDetection (detected : String → Bool) : Option String :=
  PROJECT_TYPES.find? detected

/-- The resolveValue chain of ProjectDetails.determineSingleApp: declared
type first, detection only when the declared type yielded nothing. -/
def resolveType (env : DetailsEnv) (config : AppConfig) : Option String :=
  match getTypeFromConfig config with
  | some t => some t
  | none => getTypeFromDetection env.detected

/-- Result of ProjectDetails.determineSingleApp (ProjectDetailsSingleAppResult
without the constant context tag). -/
structure SingleAppResult where
  config : AppConfig
  type : Option String
  errors : List ErrorCode
  deriving DecidableEq, Repr

/-- ProjectDetails.determineSingleApp: resolve the type, record
ERR_MISSING_PROJECT_TYPE when nothing was found and ERR_INVALID_PROJECT_TYPE
when the found type is outside PROJECT_TYPES; the found type is returned in
the result either way. -/
def determineSingleApp (env : DetailsEnv) (config : AppConfig) : SingleAppResult :=
  let type := resolveType env config
  let errors : List ErrorCode :=
    match type with
    | none => [ErrorCode.ERR_MISSING_PROJECT_TYPE]
    | some t =>
      if PROJECT_TYPES.contains t then [] else [ErrorCode.ERR_INVALID_PROJECT_TYPE]
  { config := config, type := type, errors := errors }

/-- Result of ProjectDetails.determineMultiApp (ProjectDetailsMultiAppResult
without the constant context tag). -/
structure MultiAppResult where
  config : MultiAppConfig
  name : Option String
  type : Option String
  errors : List ErrorCode
  deriving DecidableEq, Repr

/-- Lookup of config.projects[name] in the projects mapping. -/
def lookupProject (m : List (String × AppConfig)) (name : String) : Option AppConfig :=
  Option.map Prod.snd (m.find? (fun kv => kv.fst == name))

/-- ProjectDetails.determineMultiApp: resolve the name through the three-step
chain; on success look the sub-config up and run single-app type resolution on
it, merging its errors; record ERR_MULTI_MISSING_CONFIG when the name is not
in the mapping and ERR_MULTI_MISSING_NAME when no name resolved. -/
def determineMultiApp (env : DetailsEnv) (config : MultiAppConfig) : MultiAppResult :=
  match resolveName env config with
  | some n =>
    match lookupProject config.projects n with
    | some app =>
      let r := determineSingleApp env app
      { config := config, name := some n, type := r.type, errors := r.errors }
    | none =>
      { config := config, name := some n, type := none,
        errors := [ErrorCode.ERR_MULTI_MISSING_CONFIG] }
  | none =>
    { config := config, name := none, type := none,
      errors := [ErrorCode.ERR_MULTI_MISSING_NAME] }

/-- Context tag of a ProjectDetailsResult. -/
inductive Context where
  | app
  | multiapp
  | unknown
  deriving DecidableEq, Repr

/-- ProjectDetailsResult: context, configPath, the raw config when it could be
read, and the resolved name, type and collected diagnostics. -/
structure DetailsResult where
  context : Context
  configPath : String
  config : Option RawConfig
  name : Option String
  type : Option String
  errors : List ErrorCode
  deriving DecidableEq, Repr

/-- ProjectDetails.determine. The outcome of readJsonFile on the config path
is passed as an Option: none models a read or parse failure, in which case
ERR_INVALID_PROJECT_FILE is the only diagnostic and no classification or
resolution runs. Otherwise the config is classified single-app, multi-app, or
neither, and the matching resolution runs. -/
def determine (env : DetailsEnv) (readResult : Option RawConfig) : DetailsResult :=
  let configPath := pathResolve env.rootDirectory PROJECT_FILE
  match readResult with
  | none =>
    { context := Context.unknown, configPath := configPath, config := none,
      name := none, type := none, errors := [ErrorCode.ERR_INVALID_PROJECT_FILE] }
  | some raw =>
    if isProjectConfig raw then
      let r := determineSingleApp env raw.top
      { context := Context.app, configPath := configPath, config := some raw,
        name := none, type := r.type, errors := r.errors }
    else
      match asMultiProjectConfig raw with
      | some mc =>
        let r := determineMultiApp env mc
        { context := Context.multiapp, configPath := configPath, config := some raw,
          name := r.name, type := r.type, errors := r.errors }
      | none =>
        { context := Context.unknown, configPath := configPath, config := some raw,
          name := none, type := none, errors := [] }

/-- ProjectDetails.result: memoization of determine through the private field
holding the computed result, modelled by explicit state passing. The read
outcome is an input of each call, so a change of the file between two calls is
a different readResult argument; the cached result is returned unchanged. -/
def resultStep (env : DetailsEnv) (readResult : Option RawConfig)
    (st : Option DetailsResult) : DetailsResult × Option DetailsResult :=
  match st with
  | some r => (r, some r)
  | none =>
    let r := determine env readResult
    (r, some r)

/-- Failure kinds a requireXRunner call can raise: RunnerNotFoundException
(from ../errors) or any other exception kind. -/
inductive RunnerFailure where
  | runnerNotFound (msg : String)
  | fatal (msg : String)
  | other (msg : String)
  deriving DecidableEq, Repr

/-- The instanceof RunnerNotFoundException test used in the catch blocks of
the getXRunner methods. -/
def isRunnerNotFoundException (e : RunnerFailure) : Bool :=
  match e with
  | RunnerFailure.runnerNotFound _ => true
  | _ => false

/-- Project.getBuildRunner: run requireBuildRunner (whose outcome is the req
argument, since the variant classes are outside this snapshot), convert
exactly a RunnerNotFoundException into an absent result, and rethrow every
other failure unchanged. -/
def getBuildRunner {α : Type} (req : Except RunnerFailure α) :
    Except RunnerFailure (Option α) :=
  match req with
  | Except.ok r => Except.ok (some r)
  | Except.error e =>
    if isRunnerNotFoundException e then Except.ok none else Except.error e

/-- Project.getServeRunner: same catch structure as getBuildRunner, over the
outcome of requireServeRunner. -/
def getServeRunner {α : Type} (req : Except RunnerFailure α) :
    Except RunnerFailure (Option α) :=
  match req with
  | Except.ok r => Except.ok (some r)
  | Except.error e =>
    if isRunnerNotFoundException e then Except.ok none else Except.error e

/-- Project.getGenerateRunner: same catch structure as getBuildRunner, over
the outcome of requireGenerateRunner. -/
def getGenerateRunner {α : Type} (req : Except RunnerFailure α) :
    Except RunnerFailure (Option α) :=
  match req with
  | Except.ok r => Except.ok (some r)
  | Except.error e =>
    if isRunnerNotFoundException e then Except.ok none else Except.error e

/-- The project config fields touched by the ProjectConfig constructor
migration. BaseConfig of cli-framework is outside this snapshot; modelled
from the spec, its c field is the loaded contents and set and unset are the
plain field writes used here. -/
structure ConfigFile where
  name : Option String
  app_id : Option String
  pro_id : Option String
  deriving DecidableEq, Repr

/-- The below-4.0.0 migration in the ProjectConfig constructor: when app_id is
present as a string, copy it to pro_id when truthy, then unset app_id. -/
def migrateProjectConfig (c : ConfigFile) : ConfigFile :=
  match c.app_id with
  | some s =>
    if s = "" then { c with app_id := none }
    else { c with app_id := none, pro_id := some s }
  | none => c

/-! Helper lemmas shared by the claim theorems. -/

/-- The name returned by determineMultiApp is exactly the outcome of the
three-step resolution chain. -/
theorem determineMultiApp_name_eq (env : DetailsEnv) (config : MultiAppConfig) :
    (determineMultiApp env config).name = resolveName env config := by
  unfold determineMultiApp
  cases hr : resolveName env config with
  | none => rfl
  | some n =>
    cases hl : lookupProject config.projects n <;> simp [hl]

/-- The type returned by determineSingleApp is exactly the outcome of the
two-step resolution chain. -/
theorem determineSingleApp_type_eq (env : DetailsEnv) (config : AppConfig) :
    (determineSingleApp env config).type = resolveType env config := rfl

/-- Errors of determineSingleApp when no type resolved. -/
theorem determineSingleApp_errors_none (env : DetailsEnv) (config : AppConfig)
    (h : resolveType env config = none) :
    (determineSingleApp env config).errors = [ErrorCode.ERR_MISSING_PROJECT_TYPE] := by
  simp [determineSingleApp, h]

/-- Errors of determineSingleApp when a type resolved. -/
theorem determineSingleApp_errors_some (env : DetailsEnv) (config : AppConfig)
    (t : String) (h : resolveType env config = some t) :
    (determineSingleApp env config).errors =
      if PROJECT_TYPES.contains t then [] else [ErrorCode.ERR_INVALID_PROJECT_TYPE] := by
  simp [determineSingleApp, h]

/-- First-match property of List.find? over a decomposed list: when nothing
before x satisfies p and x does, the search returns x. -/
theorem find?_append_first {α : Type} (p : α → Bool) :
    ∀ (pre : List α) (x : α) (post : List α),
      (∀ y ∈ pre, p y = false) → p x = true →
      (pre ++ x :: post).find? p = some x := by
  intro pre
  induction pre with
  | nil =>
    intro x post _ hx
    simp [List.find?, hx]
  | cons a l ih =>
    intro x post hpre hx
    have ha : p a = false := hpre a (List.mem_cons_self a l)
    rw [List.cons_append, List.find?_cons_of_neg _ (by simp [ha])]
    exact ih x post (fun y hy => hpre y (List.mem_cons_of_mem a hy)) hx

/-- Index form of the first-match property of List.find?: when position i
satisfies p, the search returns an element at a position at most i that
satisfies p. -/
theorem find?_first_index {α : Type} (p : α → Bool) :
    ∀ (l : List α) (i : Nat) (hi : i < l.length), p (l.get ⟨i, hi⟩) = true →
      ∃ k, ∃ hk : k < l.length, k ≤ i ∧ p (l.get ⟨k, hk⟩) = true ∧
        l.find? p = some (l.get ⟨k, hk⟩) := by
  intro l
  induction l with
  | nil =>
    intro i hi hp
    exact absurd hi (Nat.not_lt_zero i)
  | cons a t ih =>
    intro i hi hp
    cases hpa : p a with
    | true =>
      refine ⟨0, Nat.succ_pos t.length, Nat.zero_le i, hpa, ?_⟩
      rw [List.find?_cons_of_pos _ hpa]
      rfl
    | false =>
      cases i with
      | zero =>
        have hpa0 : p a = true := hp
        simp [hpa0] at hpa
      | succ j =>
        have hj : j < t.length := Nat.lt_of_succ_lt_succ hi
        have hp2 : p (t.get ⟨j, hj⟩) = true := hp
        obtain ⟨k, hk, hki, hpk, hfind⟩ := ih j hj hp2
        refine ⟨k + 1, Nat.succ_lt_succ hk, Nat.succ_le_succ hki, hpk, ?_⟩
        rw [List.find?_cons_of_neg _ (by simp [hpa])]
        exact hfind

/-! Claim theorems. -/

/-- C1: multi-app name resolution tries the project CLI arg, then the path
containment match, then defaultProject, in strict priority, each later step
only when every earlier one yielded nothing; an explicit project arg is always
the selected name, for every config. -/
theorem c1_name_resolution_priority (env : DetailsEnv) (config : MultiAppConfig) :
    (∀ s, s ≠ "" → env.argsProject = some s →
      (determineMultiApp env config).name = some s)
    ∧ (getNameFromArgs env = none →
        ∀ s, getNameFromPathMatch env config = some s →
          (determineMultiApp env config).name = some s)
    ∧ (getNameFromArgs env = none → getNameFromPathMatch env config = none →
        (determineMultiApp env config).name = getNameFromDefaultProject config) := by
  refine ⟨?_, ?_, ?_⟩
  · intro s hs hargs
    have h1 : getNameFromArgs env = some s := by simp [getNameFromArgs, hargs, hs]
    rw [determineMultiApp_name_eq]
    simp [resolveName, h1]
  · intro hargs s hpath
    rw [determineMultiApp_name_eq]
    simp [resolveName, hargs, hpath]
  · intro hargs hpath
    rw [determineMultiApp_name_eq]
    simp [resolveName, hargs, hpath]

/-- Witness for C1 at a concrete input: an explicit project arg wins over a
path match and a defaultProject. -/
theorem c1_witness :
    (determineMultiApp
        { rootDirectory := "/w", execPath := "/w/apps/app1/src", argsProject := some "app2",
          detected := fun _ => false }
        { projects := [("app1", { type := some "angular", root := some "apps/app1" })],
          defaultProject := some "app1" }).name = some "app2" :=
  (c1_name_resolution_priority
    { rootDirectory := "/w", execPath := "/w/apps/app1/src", argsProject := some "app2",
      detected := fun _ => false }
    { projects := [("app1", { type := some "angular", root := some "apps/app1" })],
      defaultProject := some "app1" }).1 "app2" (by decide) rfl

/-- C2: type resolution takes the declared type field when present and truthy;
only when that yields nothing is the result exactly the detection probe, which
scans PROJECT_TYPES in its fixed order and stops at the first detected marker,
so of two detected types the one at an earlier or equal position is selected. -/
theorem c2_type_resolution_priority (env : DetailsEnv) (config : AppConfig) :
    (∀ t, t ≠ "" → config.type = some t →
      (determineSingleApp env config).type = some t)
    ∧ (getTypeFromConfig config = none →
        (determineSingleApp env config).type = getTypeFromDetection env.detected)
    ∧ (∀ i, ∀ hi : i < PROJECT_TYPES.length,
        env.detected (PROJECT_TYPES.get ⟨i, hi⟩) = true →
        ∃ k, ∃ hk : k < PROJECT_TYPES.length, k ≤ i ∧
          env.detected (PROJECT_TYPES.get ⟨k, hk⟩) = true ∧
          getTypeFromDetection env.detected = some (PROJECT_TYPES.get ⟨k, hk⟩)) := by
  refine ⟨?_, ?_, ?_⟩
  · intro t ht hty
    have h1 : getTypeFromConfig config = some t := by simp [getTypeFromConfig, hty, ht]
    rw [determineSingleApp_type_eq]
    simp [resolveType, h1]
  · intro h
    rw [determineSingleApp_type_eq]
    simp [resolveType, h]
  · intro i hi hd
    exact find?_first_index env.detected PROJECT_TYPES i hi hd

/-- Witness for C2 at a concrete input: a declared custom type wins even when
every detection marker is present. -/
theorem c2_witness :
    (determineSingleApp
        { rootDirectory := "/w", execPath := "/w", argsProject := none,
          detected := fun _ => true }
        { type := some "custom", root := none }).type = some "custom" :=
  (c2_type_resolution_priority
    { rootDirectory := "/w", execPath := "/w", argsProject := none,
      detected := fun _ => true }
    { type := some "custom", root := none }).1 "custom" (by decide) rfl

/-- C3: a missing type yields ERR_MISSING_PROJECT_TYPE; a resolved type
outside the closed enum is still returned in the result together with
ERR_INVALID_PROJECT_TYPE; hence any returned type is in the enum or the
invalid-type error is present. -/
theorem c3_type_errors (env : DetailsEnv) (config : AppConfig) :
    ((determineSingleApp env config).type = none →
        ErrorCode.ERR_MISSING_PROJECT_TYPE ∈ (determineSingleApp env config).errors)
    ∧ (∀ t, resolveType env config = some t → PROJECT_TYPES.contains t = false →
        (determineSingleApp env config).type = some t ∧
        ErrorCode.ERR_INVALID_PROJECT_TYPE ∈ (determineSingleApp env config).errors)
    ∧ (∀ t, (determineSingleApp env config).type = some t →
        t ∈ PROJECT_TYPES ∨
        ErrorCode.ERR_INVALID_PROJECT_TYPE ∈ (determineSingleApp env config).errors) := by
  refine ⟨?_, ?_, ?_⟩
  · intro h
    have hr : resolveType env config = none := by
      rw [← determineSingleApp_type_eq]; exact h
    rw [determineSingleApp_errors_none env config hr]
    simp
  · intro t h hc
    refine ⟨?_, ?_⟩
    · rw [determineSingleApp_type_eq]; exact h
    · rw [determineSingleApp_errors_some env config t h, hc]
      simp
  · intro t h
    have hr : resolveType env config = some t := by
      rw [← determineSingleApp_type_eq]; exact h
    by_cases hm : t ∈ PROJECT_TYPES
    · exact Or.inl hm
    · refine Or.inr ?_
      have hc : PROJECT_TYPES.contains t = false := by simpa using hm
      rw [determineSingleApp_errors_some env config t hr, hc]
      simp

/-- Witness for C3 at a concrete input: an out-of-enum declared type is
returned and flagged with ERR_INVALID_PROJECT_TYPE. -/
theorem c3_witness :
    (determineSingleApp
        { rootDirectory := "/w", execPath := "/w", argsProject := none,
          detected := fun _ => false }
        { type := some "react", root := none }).type = some "react" ∧
    ErrorCode.ERR_INVALID_PROJECT_TYPE ∈
      (determineSingleApp
        { rootDirectory := "/w", execPath := "/w", argsProject := none,
          detected := fun _ => false }
        { type := some "react", root := none }).errors :=
  (c3_type_errors
    { rootDirectory := "/w", execPath := "/w", argsProject := none,
      detected := fun _ => false }
    { type := some "react", root := none }).2.1 "react" (by decide) (by decide)

/-- C4: when all three name-resolution steps fail the multi-app result has no
name and carries ERR_MULTI_MISSING_NAME; when a name resolves but is absent
from the projects mapping the result carries ERR_MULTI_MISSING_CONFIG and has
no type. -/
theorem c4_multi_errors (env : DetailsEnv) (config : MultiAppConfig) :
    (getNameFromArgs env = none → getNameFromPathMatch env config = none →
      getNameFromDefaultProject config = none →
      (determineMultiApp env config).name = none ∧
      ErrorCode.ERR_MULTI_MISSING_NAME ∈ (determineMultiApp env config).errors)
    ∧ (∀ n, resolveName env config = some n → lookupProject config.projects n = none →
        ErrorCode.ERR_MULTI_MISSING_CONFIG ∈ (determineMultiApp env config).errors ∧
        (determineMultiApp env config).type = none) := by
  constructor
  · intro h1 h2 h3
    have hr : resolveName env config = none := by simp [resolveName, h1, h2, h3]
    constructor <;> simp [determineMultiApp, hr]
  · intro n hr hl
    constructor <;> simp [determineMultiApp, hr, hl]

/-- Witness for C4 at a concrete input: an explicit project arg naming a
project absent from the mapping yields ERR_MULTI_MISSING_CONFIG and no type. -/
theorem c4_witness :
    ErrorCode.ERR_MULTI_MISSING_CONFIG ∈
      (determineMultiApp
        { rootDirectory := "/w", execPath := "/w", argsProject := some "foo",
          detected := fun _ => false }
        { projects := [("app1", { type := some "angular", root := none })],
          defaultProject := none }).errors ∧
    (determineMultiApp
        { rootDirectory := "/w", execPath := "/w", argsProject := some "foo",
          detected := fun _ => false }
        { projects := [("app1", { type := some "angular", root := none })],
          defaultProject := none }).type = none :=
  (c4_multi_errors
    { rootDirectory := "/w", execPath := "/w", argsProject := some "foo",
      detected := fun _ => false }
    { projects := [("app1", { type := some "angular", root := none })],
      defaultProject := none }).2 "foo" (by decide) (by decide)

/-- C5: a read or parse failure of the config file yields context unknown,
errors exactly ERR_INVALID_PROJECT_FILE, no type, no name and no config, so
no classification or resolution output is produced. -/
theorem c5_invalid_project_file (env : DetailsEnv) :
    (determine env none).context = Context.unknown ∧
    (determine env none).errors = [ErrorCode.ERR_INVALID_PROJECT_FILE] ∧
    (determine env none).type = none ∧
    (determine env none).name = none ∧
    (determine env none).config = none :=
  ⟨rfl, rfl, rfl, rfl, rfl⟩

/-- C6: result() memoizes: after a first call, a second call returns the
cached result computed from the first read outcome unchanged, whatever the
file holds at the second read. -/
theorem c6_result_memoized (env : DetailsEnv) (read1 read2 : Option RawConfig) :
    resultStep env read2 (resultStep env read1 none).snd
      = ((resultStep env read1 none).fst, (resultStep env read1 none).snd) := rfl

/-- C7: each getXRunner returns the runner when its requireXRunner succeeds,
returns the absent value exactly when it fails with RunnerNotFoundException,
and rethrows any other failure unchanged. -/
theorem c7_runner_absence (α : Type) (req : Except RunnerFailure α) :
    (∀ r, req = Except.ok r →
        getBuildRunner req = Except.ok (some r) ∧
        getServeRunner req = Except.ok (some r) ∧
        getGenerateRunner req = Except.ok (some r))
    ∧ (∀ e, req = Except.error e → isRunnerNotFoundException e = true →
        getBuildRunner req = Except.ok none ∧
        getServeRunner req = Except.ok none ∧
        getGenerateRunner req = Except.ok none)
    ∧ (∀ e, req = Except.error e → isRunnerNotFoundException e = false →
        getBuildRunner req = Except.error e ∧
        getServeRunner req = Except.error e ∧
        getGenerateRunner req = Except.error e) := by
  refine ⟨?_, ?_, ?_⟩
  · intro r h
    subst h
    exact ⟨rfl, rfl, rfl⟩
  · intro e h he
    subst h
    refine ⟨?_, ?_, ?_⟩ <;>
      simp [getBuildRunner, getServeRunner, getGenerateRunner, he]
  · intro e h he
    subst h
    refine ⟨?_, ?_, ?_⟩ <;>
      simp [getBuildRunner, getServeRunner, getGenerateRunner, he]

/-- Witness for C7 at a concrete input: a RunnerNotFoundException from the
require methods becomes an absent runner in all three get methods. -/
theorem c7_witness :
    getBuildRunner (Except.error (RunnerFailure.runnerNotFound "no build")
        : Except RunnerFailure Nat) = Except.ok none ∧
    getServeRunner (Except.error (RunnerFailure.runnerNotFound "no build")
        : Except RunnerFailure Nat) = Except.ok none ∧
    getGenerateRunner (Except.error (RunnerFailure.runnerNotFound "no build")
        : Except RunnerFailure Nat) = Except.ok none :=
  (c7_runner_absence Nat (Except.error (RunnerFailure.runnerNotFound "no build"))).2.1
    (RunnerFailure.runnerNotFound "no build") rfl rfl

/-- C8: one load migrates a non-empty app_id to pro_id and removes app_id,
and the migration is idempotent, so a repeated load changes nothing further. -/
theorem c8_app_id_migration (c : ConfigFile) (x : String) (hx : x ≠ "") :
    migrateProjectConfig { c with app_id := some x }
        = { c with app_id := none, pro_id := some x }
    ∧ ∀ d, migrateProjectConfig (migrateProjectConfig d) = migrateProjectConfig d := by
  constructor
  · simp [migrateProjectConfig, hx]
  · intro d
    cases hd : d.app_id with
    | none => simp [migrateProjectConfig, hd]
    | some s =>
      by_cases hs : s = ""
      · simp [migrateProjectConfig, hd, hs]
      · simp [migrateProjectConfig, hd, hs]

/-- Witness for C8 at a concrete input: app_id X becomes pro_id X with app_id
absent after one load. -/
theorem c8_witness :
    migrateProjectConfig { name := some "app", app_id := some "X", pro_id := none }
      = { name := some "app", app_id := none, pro_id := some "X" } :=
  (c8_app_id_migration { name := some "app", app_id := none, pro_id := none }
    "X" (by decide)).1

/-- C9: the path-containment step scans the projects mapping in declaration
order and selects the first entry whose configured root, resolved against the
root directory, is a prefix of the working directory. -/
theorem c9_path_match_first (env : DetailsEnv) (config : MultiAppConfig)
    (pre post : List (String × AppConfig)) (k : String) (v : AppConfig) (r : String)
    (hsplit : config.projects = pre ++ (k, v) :: post)
    (hpre : ∀ kv ∈ pre, rootMatches env kv.snd = false)
    (hroot : v.root = some r) (hr : r ≠ "")
    (hstart : strStartsWith env.execPath (pathResolve env.rootDirectory r) = true) :
    getNameFromPathMatch env config = some k := by
  have hm : rootMatches env v = true := by simp [rootMatches, hroot, hr, hstart]
  unfold getNameFromPathMatch
  rw [hsplit, find?_append_first (fun kv => rootMatches env kv.snd) pre (k, v) post hpre hm]
  rfl

/-- Witness for C9 at a concrete input: a working directory inside the
resolved root of the first entry selects that entry. -/
theorem c9_witness :
    getNameFromPathMatch
        { rootDirectory := "/w", execPath := "/w/apps/one/src", argsProject := none,
          detected := fun _ => false }
        { projects := [("one", { type := none, root := some "apps/one" })],
          defaultProject := none } = some "one" :=
  c9_path_match_first _ _ [] [] "one" { type := none, root := some "apps/one" } "apps/one"
    rfl (by intro kv hkv; exact absurd hkv (List.not_mem_nil kv)) rfl (by decide) (by decide)

/-- C10: a config that reads and parses successfully but matches neither the
single-app nor the multi-app shape yields context unknown with an empty
errors list, the raw config still carried in the result and no type. -/
theorem c10_unknown_shape_silent (env : DetailsEnv) (raw : RawConfig)
    (hsingle : isProjectConfig raw = false)
    (hmulti : asMultiProjectConfig raw = none) :
    (determine env (some raw)).context = Context.unknown ∧
    (determine env (some raw)).errors = [] ∧
    (determine env (some raw)).config = some raw ∧
    (determine env (some raw)).type = none := by
  refine ⟨?_, ?_, ?_, ?_⟩ <;> simp [determine, hsingle, hmulti]

/-- Witness for C10 at a concrete input: a projects field that is present but
not a mapping yields context unknown and no diagnostics. -/
theorem c10_witness :
    (determine
        { rootDirectory := "/w", execPath := "/w", argsProject := none,
          detected := fun _ => false }
        (some { projects := ProjectsField.nonMapping, top := { type := none, root := none },
                defaultProject := none })).context = Context.unknown ∧
    (determine
        { rootDirectory := "/w", execPath := "/w", argsProject := none,
          detected := fun _ => false }
        (some { projects := ProjectsField.nonMapping, top := { type := none, root := none },
                defaultProject := none })).errors = [] ∧
    (determine
        { rootDirectory := "/w", execPath := "/w", argsProject := none,
          detected := fun _ => false }
        (some { projects := ProjectsField.nonMapping, top := { type := none, root := none },
                defaultProject := none })).config =
      some { projects := ProjectsField.nonMapping, top := { type := none, root := none },
             defaultProject := none } ∧
    (determine
        { rootDirectory := "/w", execPath := "/w", argsProject := none,
          detected := fun _ => false }
        (some { projects := ProjectsField.nonMapping, top := { type := none, root := none },
                defaultProject := none })).type = none :=
  c10_unknown_shape_silent _ _ rfl rfl

end IonicCli
